import Mathlib

/-!
Shallow embedding of the city CRUD backend (`src/backend/index.ts`).

The backend is an Express application over a MongoDB collection of city
documents.  Each route handler is embedded as a pure Lean function from the
store state (the list of persisted city documents, in insertion order) and
the request data to an explicit response value.  MongoDB/`RegExp` string
patterns are embedded by a small pattern AST covering the fragment made of
literal characters, `.`, `^` and `$`; parsing fails outside this fragment.
JS/PCRE accept some of the excluded patterns (quantifiers such as `a*`,
alternation with `|`), so a model parse failure coincides with the
program's `new RegExp`-throws / invalid-`$regex` error path only for
patterns that are genuinely invalid there, such as an unmatched `(`.
Accordingly, every theorem below either restricts the submitted strings to
the literal fragment (the `isLitChar` guard, under which the anchored
probe is exactly case-insensitive equality and the search filter exactly
substring containment) or is stated at concrete patterns — like `(` —
whose rejection is real.  Matching is case-insensitive, mirroring the
`'i'` option used by every pattern in the source.
-/

namespace CityApi

/-- A persisted city document: `_id` (embedded as `Nat`), `cityName` and
`count`, following the `ICity` schema of `src/backend/index.ts`. -/
structure City where
  id : Nat
  cityName : String
  count : Int
deriving Repr, DecidableEq

/-- The state of the `cities` collection, in insertion order. -/
abbrev Store := List City

/-- Atom of the embedded pattern language: a literal character, the `.`
wildcard, or the `^`/`$` anchors. -/
inductive RAtom where
  | lit (c : Char)
  | dot
  | caret
  | dollar
deriving Repr, DecidableEq

/-- Regex metacharacters outside the embedded fragment: a pattern
containing one is not modelled and fails `parseChars`.  JS/PCRE would
accept some such patterns (e.g. `*`/`+`/`?` quantifiers) and genuinely
reject others (e.g. an unmatched `(`); no theorem below equates a model
parse failure with the program's error path except at concrete patterns,
such as `(`, where that equation is real. -/
def metaChar (c : Char) : Bool :=
  c == '(' || c == ')' || c == '[' || c == ']' || c == '\x7b' || c == '\x7d' ||
  c == '*' || c == '+' || c == '?' || c == '|' || c == '\\'

/-- Parse one pattern character of the modelled fragment. -/
def parseAtom (c : Char) : Option RAtom :=
  if c == '^' then some .caret
  else if c == '$' then some .dollar
  else if c == '.' then some .dot
  else if metaChar c then none
  else some (.lit c)

/-- Parse a whole pattern, failing on unsupported metacharacters. -/
def parseChars : List Char → Option (List RAtom)
  | [] => some []
  | c :: cs =>
    match parseAtom c, parseChars cs with
    | some a, some as => some (a :: as)
    | _, _ => none

/-- Match a pattern against the given tail of the subject, starting at the
current position; `isStart` records whether the current position is the
start of the subject (for `^`).  Comparison of literals is case-insensitive
(the `'i'` option). -/
def matchCore : List RAtom → Bool → List Char → Bool
  | [], _, _ => true
  | .caret :: ps, isStart, s => isStart && matchCore ps isStart s
  | .dollar :: ps, isStart, s => s.isEmpty && matchCore ps isStart s
  | .dot :: ps, _, s =>
    match s with
    | [] => false
    | _ :: t => matchCore ps false t
  | .lit c :: ps, _, s =>
    match s with
    | [] => false
    | r :: t => (c.toLower == r.toLower) && matchCore ps false t

/-- Try to match the pattern at the current position or at any later
position of the subject (unanchored search, as `$regex` does). -/
def regexTestAux (pat : List RAtom) : Bool → List Char → Bool
  | isStart, [] => matchCore pat isStart []
  | isStart, c :: t => matchCore pat isStart (c :: t) || regexTestAux pat false t

/-- `regexTest pat s` : does `pat` match somewhere in `s`
(case-insensitively)?  This is the semantics of
`cityName: \x7b $regex: pat, $options: 'i' \x7d` on a single document. -/
def regexTest (pat : List RAtom) (s : List Char) : Bool :=
  regexTestAux pat true s

/-- JS string interpolation of a possibly-`undefined` value: an absent
request field interpolates as the literal text `"undefined"` in
`new RegExp` (backticked template in the source). -/
def jsStr : Option String → String
  | some s => s
  | none => "undefined"

/-- `new RegExp("^" + name + "$", 'i')`: parse the anchored pattern built
from the submitted name.  `none` models the constructor throwing on an
invalid pattern. -/
def anchorParse (nameStr : String) : Option (List RAtom) :=
  parseChars ('^' :: nameStr.data ++ ['$'])

/-- Outcome of `POST /cities`.  `badRequest` is the catch-all 400
(`'Failed to create city'`: `RegExp` throw or mongoose `required`
validation failure on save), `conflict` the 409 duplicate answer,
`created c s` the 201 answer with the new document and resulting store. -/
inductive CreateResult where
  | badRequest
  | conflict
  | created (c : City) (s : Store)
deriving Repr, DecidableEq

/-- HTTP status of a create outcome, as mapped by the handler. -/
def createStatus : CreateResult → Nat
  | .badRequest => 400
  | .conflict => 409
  | .created _ _ => 201

/-- Error body of a create outcome (the `error` field), if any. -/
def createError : CreateResult → Option String
  | .badRequest => some "Failed to create city"
  | .conflict => some "City with this name already exists."
  | .created _ _ => none

/-- `POST /cities` handler.  Steps, in source order: build
`^cityName$` (pattern outside the modelled fragment ⇒ 400, exact for
genuinely invalid patterns such as `(` — see the module docstring);
`findOne` on it (hit ⇒ 409); construct and
`save` the document — mongoose `required` validation rejects an absent
`cityName`/`count` and an empty `cityName` string (throw ⇒ 400); otherwise
append the document (with the store-assigned fresh id `nextId`) and answer
201 with it. -/
def createCity (store : Store) (nextId : Nat) (cityName : Option String)
    (count : Option Int) : CreateResult :=
  match anchorParse (jsStr cityName) with
  | none => .badRequest
  | some pat =>
    if store.any (fun c => regexTest pat c.cityName.data) then .conflict
    else
      match cityName, count with
      | some n, some k =>
        if n = "" then .badRequest
        else .created ⟨nextId, n, k⟩ (store ++ [⟨nextId, n, k⟩])
      | _, _ => .badRequest

/-- `GET /cities/:id` : `findById`; `some` ⇒ 200 with the document,
`none` ⇒ 404. -/
def getCityById (store : Store) (id : Nat) : Option City :=
  store.find? (fun c => c.id == id)

/-- Outcome of `PUT /cities/:id`.  `badRequest` is the catch-all 400
(`'Failed to update city'`), `conflict` the duplicate-name 400
(`'City with this name already exists.'`), `notFound` the 404,
`updated c s` the 200 answer with the updated document and store. -/
inductive UpdateResult where
  | badRequest
  | conflict
  | notFound
  | updated (c : City) (s : Store)
deriving Repr, DecidableEq

/-- HTTP status of an update outcome, as mapped by the handler (note both
failure kinds map to 400, unlike create's 409). -/
def updateStatus : UpdateResult → Nat
  | .badRequest => 400
  | .conflict => 400
  | .notFound => 404
  | .updated _ _ => 200

/-- `findByIdAndUpdate` field application: provided fields overwrite,
absent (`undefined`) fields are dropped from the update and keep their
stored value.  No validators run on update (default mongoose behaviour). -/
def applyUpdate (c : City) (cityName : Option String) (count : Option Int) : City :=
  ⟨c.id, cityName.getD c.cityName, count.getD c.count⟩

/-- `PUT /cities/:id` handler.  Steps, in source order: build `^cityName$`
(pattern outside the modelled fragment ⇒ 400, exact for genuinely invalid
patterns such as `(` — see the module docstring);
`findOne` for a matching name on a document with `_id ≠ id`
(hit ⇒ 400 duplicate); `findByIdAndUpdate` with `new: true`
(miss ⇒ 404, hit ⇒ 200 with the updated document). -/
def updateCity (store : Store) (id : Nat) (cityName : Option String)
    (count : Option Int) : UpdateResult :=
  match anchorParse (jsStr cityName) with
  | none => .badRequest
  | some pat =>
    if store.any (fun c => c.id != id && regexTest pat c.cityName.data) then .conflict
    else
      match store.find? (fun c => c.id == id) with
      | none => .notFound
      | some c =>
        let c' := applyUpdate c cityName count
        .updated c' (store.map (fun x => if x.id == id then c' else x))

/-- Outcome of `DELETE /cities/:id` : 404, or 200 (`'City deleted
successfully'`) with the resulting store. -/
inductive DeleteResult where
  | notFound
  | deleted (s : Store)
deriving Repr, DecidableEq

/-- HTTP status of a delete outcome, as mapped by the handler. -/
def deleteStatus : DeleteResult → Nat
  | .notFound => 404
  | .deleted _ => 200

/-- `DELETE /cities/:id` : `findByIdAndDelete` removes the (unique, `_id`
being a unique index) matching document, embedded as erasing the first
match; `null` result ⇒ 404. -/
def deleteCity (store : Store) (id : Nat) : DeleteResult :=
  match store.find? (fun c => c.id == id) with
  | none => .notFound
  | some _ => .deleted (store.eraseP (fun c => c.id == id))

/-- `parseInt(req.query.page) || 1` : an absent or unparsable `page` is
`none` and defaults to 1; a parsed `0` is falsy and also yields 1. -/
def effPage : Option Int → Int
  | none => 1
  | some p => if p == 0 then 1 else p

/-- The documents matching the search pattern, in store order (the filter
of both `countDocuments` and `find`). -/
def searchFilter (store : Store) (pat : List RAtom) : List City :=
  store.filter (fun c => regexTest pat c.cityName.data)

/-- Success body of `GET /api/cities`. -/
structure SearchOk where
  cities : List City
  total : Nat
  page : Int
  totalPages : Nat
deriving Repr, DecidableEq

/-- Outcome of `GET /api/cities` : 200 with the body, or the catch-all 500
(a `$regex` pattern outside the modelled fragment, or a negative `skip`
rejected by the store). -/
inductive SearchResult where
  | serverError
  | ok (r : SearchOk)
deriving Repr, DecidableEq

/-- `GET /api/cities` handler: `search` defaults to `''`; page size is
fixed at 5; `total = countDocuments(filter)`;
`cities = find(filter).skip((page-1)*5).limit(5)` — a negative skip is
rejected by MongoDB (⇒ 500); `totalPages = ceil(total/5)`, embedded as
`(total + 4) / 5` in `Nat`. -/
def searchCities (store : Store) (search : Option String)
    (page : Option Int) : SearchResult :=
  match parseChars (search.getD "").data with
  | none => .serverError
  | some pat =>
    let p := effPage page
    if (p - 1) * 5 < 0 then .serverError
    else
      let ms := searchFilter store pat
      .ok ⟨(ms.drop ((p - 1) * 5).toNat).take 5, ms.length, p, (ms.length + 4) / 5⟩

/-- Spec-side predicate (§8 of the spec): `p` occurs in `s` as a
contiguous sublist — a substring scan by positions. -/
def listContains (p : List Char) : List Char → Bool
  | [] => p.isPrefixOf []
  | c :: t => p.isPrefixOf (c :: t) || listContains p t

/-- Spec-side predicate: `term` is a case-insensitive substring of
`name`. -/
def containsCI (term name : String) : Bool :=
  listContains (term.data.map Char.toLower) (name.data.map Char.toLower)

/-- Spec-side predicate: the two strings are equal ignoring case (the
exact full-name comparison of the uniqueness rule, §4.2/§8). -/
def ciEq (a b : String) : Bool :=
  a.data.map Char.toLower == b.data.map Char.toLower

/-- A character the embedded pattern language treats as a plain literal:
not an anchor, not `.`, not a metacharacter. -/
def isLitChar (c : Char) : Bool :=
  !(c == '^') && !(c == '$') && !(c == '.') && !metaChar c

end CityApi

namespace CityApi

/-! ### Pattern-language lemmas -/

theorem matchCore_caret_false (ps : List RAtom) (s : List Char) :
    matchCore (.caret :: ps) false s = false := by
  simp [matchCore]

theorem regexTestAux_caret_false (ps : List RAtom) (s : List Char) :
    regexTestAux (.caret :: ps) false s = false := by
  induction s with
  | nil => simp [regexTestAux, matchCore_caret_false]
  | cons c t ih => simp [regexTestAux, matchCore_caret_false, ih]

theorem matchCore_lits_dollar (cs : List Char) (b : Bool) (s : List Char) :
    matchCore (cs.map RAtom.lit ++ [.dollar]) b s = true ↔
      cs.map Char.toLower = s.map Char.toLower := by
  induction cs generalizing b s with
  | nil => cases s <;> simp [matchCore]
  | cons c cs ih =>
    cases s with
    | nil => simp [matchCore]
    | cons r t => simp [matchCore, ih]

theorem matchCore_lits (cs : List Char) (b : Bool) (s : List Char) :
    matchCore (cs.map RAtom.lit) b s =
      (cs.map Char.toLower).isPrefixOf (s.map Char.toLower) := by
  induction cs generalizing b s with
  | nil => simp [matchCore]
  | cons c cs ih =>
    cases s with
    | nil => simp [matchCore, List.isPrefixOf]
    | cons r t => simp [matchCore, List.isPrefixOf, ih]

theorem regexTestAux_lits (cs : List Char) (b : Bool) (s : List Char) :
    regexTestAux (cs.map RAtom.lit) b s =
      listContains (cs.map Char.toLower) (s.map Char.toLower) := by
  induction s generalizing b with
  | nil => simp [regexTestAux, listContains, matchCore_lits]
  | cons r t ih => simp [regexTestAux, listContains, matchCore_lits, ih]

theorem regexTest_lits (cs : List Char) (s : List Char) :
    regexTest (cs.map RAtom.lit) s =
      listContains (cs.map Char.toLower) (s.map Char.toLower) :=
  regexTestAux_lits cs true s

theorem regexTest_anchored (cs : List Char) (s : List Char) :
    regexTest (.caret :: (cs.map RAtom.lit ++ [.dollar])) s = true ↔
      cs.map Char.toLower = s.map Char.toLower := by
  cases s with
  | nil =>
    simp [regexTest, regexTestAux, matchCore, matchCore_lits_dollar]
  | cons c t =>
    simp [regexTest, regexTestAux, matchCore, regexTestAux_caret_false,
      matchCore_lits_dollar]

theorem regexTest_anchored_eq_ciEq (cs : List Char) (city : String) :
    regexTest (.caret :: (cs.map RAtom.lit ++ [.dollar])) city.data =
      ciEq city ⟨cs⟩ := by
  rw [Bool.eq_iff_iff]
  simp only [regexTest_anchored, ciEq]
  constructor
  · intro h; exact beq_iff_eq.mpr h.symm
  · intro h; exact (beq_iff_eq.mp h).symm

/-! ### Parse lemmas -/

theorem parseAtom_lit {c : Char} (h : isLitChar c = true) :
    parseAtom c = some (.lit c) := by
  simp only [isLitChar, Bool.and_eq_true, Bool.not_eq_true'] at h
  simp [parseAtom, h.1.1.1, h.1.1.2, h.1.2, h.2]

theorem parseChars_lits {cs : List Char} (h : cs.all isLitChar = true) :
    parseChars cs = some (cs.map RAtom.lit) := by
  induction cs with
  | nil => rfl
  | cons c cs ih =>
    simp only [List.all_cons, Bool.and_eq_true] at h
    simp [parseChars, parseAtom_lit h.1, ih h.2]

theorem parseChars_lits_dollar {cs : List Char} (h : cs.all isLitChar = true) :
    parseChars (cs ++ ['$']) = some (cs.map RAtom.lit ++ [.dollar]) := by
  induction cs with
  | nil => rfl
  | cons c cs ih =>
    simp only [List.all_cons, Bool.and_eq_true] at h
    simp [parseChars, parseAtom_lit h.1, ih h.2]

theorem anchorParse_lits {name : String} (h : name.data.all isLitChar = true) :
    anchorParse name = some (.caret :: (name.data.map RAtom.lit ++ [.dollar])) := by
  simp [anchorParse, parseChars, parseAtom, parseChars_lits_dollar h]

end CityApi

namespace CityApi

/-! ### Store lemmas -/

theorem find_id_of_mem_nodup {store : Store} {A : City}
    (hnd : (store.map City.id).Nodup) (hA : A ∈ store) :
    store.find? (fun c => c.id == A.id) = some A := by
  induction store with
  | nil => cases hA
  | cons h t ih =>
    simp only [List.map_cons, List.nodup_cons] at hnd
    rcases List.mem_cons.mp hA with rfl | hmem
    · simp [List.find?_cons]
    · have hid : h.id ≠ A.id := by
        intro he
        exact hnd.1 (he ▸ List.mem_map_of_mem City.id hmem)
      simp [List.find?_cons, hid, ih hnd.2 hmem]

theorem eraseP_id_not_mem {store : Store} {id : Nat}
    (hnd : (store.map City.id).Nodup) :
    ∀ c ∈ store.eraseP (fun c => c.id == id), c.id ≠ id := by
  induction store with
  | nil => intro c hc; cases hc
  | cons h t ih =>
    simp only [List.map_cons, List.nodup_cons] at hnd
    intro c hc
    by_cases hh : h.id = id
    · rw [List.eraseP_cons, show (h.id == id) = true from beq_iff_eq.mpr hh] at hc
      simp only [cond_true] at hc
      intro he
      exact hnd.1 (by rw [hh, ← he]; exact List.mem_map_of_mem City.id hc)
    · rw [List.eraseP_cons, show (h.id == id) = false from beq_eq_false_iff_ne.mpr hh] at hc
      simp only [cond_false, List.mem_cons] at hc
      rcases hc with rfl | hc
      · exact hh
      · exact ih hnd.2 c hc

/-- Inversion of a successful search: the pattern parsed, the skip was
non-negative, and every response field is as computed by the handler. -/
theorem searchCities_ok_inv {store : Store} {search : Option String}
    {page : Option Int} {r : SearchOk}
    (h : searchCities store search page = .ok r) :
    ∃ pat, parseChars (search.getD "").data = some pat ∧
      r.total = (searchFilter store pat).length ∧
      r.totalPages = (r.total + 4) / 5 ∧
      r.page = effPage page ∧
      r.cities = ((searchFilter store pat).drop
        ((effPage page - 1) * 5).toNat).take 5 := by
  unfold searchCities at h
  rcases hp : parseChars (search.getD "").data with _ | pat
  · rw [hp] at h; cases h
  · rw [hp] at h
    simp only at h
    by_cases hneg : (effPage page - 1) * 5 < 0
    · rw [if_pos hneg] at h; cases h
    · rw [if_neg hneg] at h
      cases h
      exact ⟨pat, rfl, rfl, rfl, rfl, rfl⟩

end CityApi

namespace CityApi

theorem regexTest_nil (s : List Char) : regexTest [] s = true := by
  cases s <;> simp [regexTest, regexTestAux, matchCore]

/-! ### Claim C1 -/

/-- Claim C1, counterexample: the search term is compiled into a regex, so
the term `"."` matches the city `"ab"` (the wildcard matches `'a'`) even
though `"."` is not a substring of `"ab"`: the response returns a city
whose name does not contain the term. -/
theorem C1_counterexample :
    searchCities [⟨1, "ab", 0⟩] (some ".") none
        = .ok ⟨[⟨1, "ab", 0⟩], 1, 1, 1⟩
    ∧ containsCI "." "ab" = false := by
  exact ⟨by decide, by decide⟩

/-- Claim C1 (amended): for every search term made only of literal
characters (no regex metacharacters, wildcards or anchors), every city in
the response body contains the term as a case-insensitive substring; and
with an absent (hence empty) term the filter accepts every city in the
store, so `total` is the whole store size. -/
theorem C1_search_filter_literal :
    (∀ (store : Store) (term : String) (page : Option Int) (r : SearchOk),
        term.data.all isLitChar = true →
        searchCities store (some term) page = .ok r →
        ∀ c ∈ r.cities, containsCI term c.cityName = true)
    ∧ (∀ (store : Store) (page : Option Int) (r : SearchOk),
        searchCities store none page = .ok r →
        r.total = store.length) := by
  constructor
  · intro store term page r hlit h c hc
    rcases searchCities_ok_inv h with ⟨pat, hpat, _, _, _, hcities⟩
    rw [Option.getD_some] at hpat
    rw [parseChars_lits hlit] at hpat
    cases hpat
    rw [hcities] at hc
    have hmem := List.mem_of_mem_drop (List.mem_of_mem_take hc)
    have := (List.mem_filter.mp hmem).2
    rwa [regexTest_lits] at this
  · intro store page r h
    rcases searchCities_ok_inv h with ⟨pat, hpat, htotal, _, _, _⟩
    simp only [Option.getD_none, String.data] at hpat
    have : pat = [] := by
      cases hpat; rfl
    subst this
    rw [htotal]
    simp [searchFilter, regexTest_nil]

/-- Claim C1 witness: instantiating the amended theorem at a concrete
store and term. -/
theorem C1_witness : containsCI "nan" "Banana" = true :=
  C1_search_filter_literal.1 [⟨1, "Banana", 2⟩] "nan" none
    ⟨[⟨1, "Banana", 2⟩], 1, 1, 1⟩ (by decide) (by decide)
    ⟨1, "Banana", 2⟩ (by decide)

/-! ### Claim C2 -/

/-- Claim C2: every successful search response satisfies
`totalPages = ⌈total / 5⌉` (in `Nat`: `(total + 4) / 5`), and `total`
depends only on the store and the search term — two successful responses
for the same term at any two pages carry the same `total`. -/
theorem C2_totalPages_ceil (store : Store) (search : Option String)
    (p q : Option Int) (r r' : SearchOk)
    (h : searchCities store search p = .ok r)
    (h' : searchCities store search q = .ok r') :
    r.totalPages = (r.total + 4) / 5 ∧ r'.total = r.total := by
  rcases searchCities_ok_inv h with ⟨pat, hpat, htotal, htp, _, _⟩
  rcases searchCities_ok_inv h' with ⟨pat', hpat', htotal', _, _, _⟩
  rw [hpat] at hpat'
  cases hpat'
  exact ⟨htp, by rw [htotal, htotal']⟩

/-- Claim C2 witness: the same store and term at pages 1 and 2. -/
theorem C2_witness :
    (⟨[⟨1, "a", 0⟩], 1, 1, 1⟩ : SearchOk).totalPages
        = ((⟨[⟨1, "a", 0⟩], 1, 1, 1⟩ : SearchOk).total + 4) / 5
    ∧ (⟨[], 1, 2, 1⟩ : SearchOk).total
        = (⟨[⟨1, "a", 0⟩], 1, 1, 1⟩ : SearchOk).total :=
  C2_totalPages_ceil [⟨1, "a", 0⟩] none none (some 2)
    ⟨[⟨1, "a", 0⟩], 1, 1, 1⟩ ⟨[], 1, 2, 1⟩ (by decide) (by decide)

/-! ### Claim C7 -/

/-- Claim C7, counterexample: page `0` is outside `1..totalPages`, but
`parseInt('0') || 1` collapses it to page 1, so the response carries the
first page's items rather than an empty list. -/
theorem C7_counterexample :
    searchCities [⟨1, "a", 0⟩] none (some 0)
        = .ok ⟨[⟨1, "a", 0⟩], 1, 1, 1⟩
    ∧ ([⟨1, "a", 0⟩] : List City) ≠ [] := by
  exact ⟨by decide, by decide⟩

/-- Claim C7 (amended): for every requested page strictly greater than
`totalPages`, the response is still 200 with an empty item list, and
`total`/`totalPages` are the same as in any other successful response for
the same term.  (Pages below 1 are not handled this way: page 0 is
collapsed to page 1 by `|| 1`, and a negative page makes the store reject
the negative skip, producing a 500.) -/
theorem C7_beyond_last_page (store : Store) (search : Option String)
    (p : Int) (r : SearchOk)
    (h : searchCities store search (some p) = .ok r)
    (hp : (r.totalPages : Int) < p) :
    r.cities = []
    ∧ ∀ (q : Option Int) (r' : SearchOk),
        searchCities store search q = .ok r' →
        r'.total = r.total ∧ r'.totalPages = r.totalPages := by
  rcases searchCities_ok_inv h with ⟨pat, hpat, htotal, htp, _, hcities⟩
  constructor
  · have hp0 : p ≠ 0 := by omega
    rw [hcities]
    have heff : effPage (some p) = p := by
      simp [effPage, show (p == 0) = false from beq_eq_false_iff_ne.mpr hp0]
    rw [heff]
    have hlen : (searchFilter store pat).length ≤ ((p - 1) * 5).toNat := by
      rw [← htotal]
      omega
    rw [List.drop_eq_nil_of_le hlen, List.take_nil]
  · intro q r' h'
    rcases searchCities_ok_inv h' with ⟨pat', hpat', htotal', htp', _, _⟩
    rw [hpat] at hpat'
    cases hpat'
    have ht : r'.total = r.total := by rw [htotal, htotal']
    exact ⟨ht, by rw [htp, htp', ht]⟩

/-- Claim C7 witness: one city, requested page 5. -/
theorem C7_witness :
    (⟨[], 1, 5, 1⟩ : SearchOk).cities = []
    ∧ (⟨[⟨1, "a", 0⟩], 1, 1, 1⟩ : SearchOk).total
        = (⟨[], 1, 5, 1⟩ : SearchOk).total :=
  ⟨(C7_beyond_last_page [⟨1, "a", 0⟩] none 5 ⟨[], 1, 5, 1⟩
      (by decide) (by decide)).1,
   ((C7_beyond_last_page [⟨1, "a", 0⟩] none 5 ⟨[], 1, 5, 1⟩
      (by decide) (by decide)).2 none ⟨[⟨1, "a", 0⟩], 1, 1, 1⟩ (by decide)).1⟩

end CityApi

namespace CityApi

/-! ### Anchored-pattern helpers shared by the write-path claims -/

theorem any_anchored (store : Store) (name : String) :
    (store.any fun c =>
        regexTest (.caret :: (name.data.map RAtom.lit ++ [.dollar])) c.cityName.data)
      = store.any fun c => ciEq c.cityName name :=
  congrArg store.any
    (funext fun c => regexTest_anchored_eq_ciEq name.data c.cityName)

theorem any_anchored_guard (store : Store) (id : Nat) (name : String) :
    (store.any fun c => c.id != id &&
        regexTest (.caret :: (name.data.map RAtom.lit ++ [.dollar])) c.cityName.data)
      = store.any fun c => c.id != id && ciEq c.cityName name :=
  congrArg store.any
    (funext fun c =>
      congrArg (c.id != id && ·) (regexTest_anchored_eq_ciEq name.data c.cityName))

/-- For a metacharacter-free submitted name, the create handler reduces to
a case-insensitive full-name duplicate test followed by the
presence/non-emptiness validation. -/
theorem createCity_eq_ci (store : Store) (nextId : Nat) (name : String)
    (k : Int) (hlit : name.data.all isLitChar = true) :
    createCity store nextId (some name) (some k)
      = (if store.any (fun c => ciEq c.cityName name) then .conflict
         else if name = "" then .badRequest
         else .created ⟨nextId, name, k⟩ (store ++ [⟨nextId, name, k⟩])) := by
  have h1 : createCity store nextId (some name) (some k)
      = (if store.any (fun c =>
            regexTest (.caret :: (name.data.map RAtom.lit ++ [.dollar])) c.cityName.data)
         then .conflict
         else if name = "" then .badRequest
         else .created ⟨nextId, name, k⟩ (store ++ [⟨nextId, name, k⟩])) := by
    unfold createCity
    rw [show jsStr (some name) = name from rfl, anchorParse_lits hlit]
  rw [h1, any_anchored store name]

/-- For a metacharacter-free submitted name, the update handler reduces to
the "another record with this name" test followed by the lookup-update. -/
theorem updateCity_eq_ci (store : Store) (id : Nat) (name : String)
    (k : Int) (hlit : name.data.all isLitChar = true) :
    updateCity store id (some name) (some k)
      = (if store.any (fun c => c.id != id && ciEq c.cityName name) then .conflict
         else
           match store.find? (fun c => c.id == id) with
           | none => .notFound
           | some c => .updated (applyUpdate c (some name) (some k))
               (store.map fun x =>
                 if x.id == id then applyUpdate c (some name) (some k) else x)) := by
  have h1 : updateCity store id (some name) (some k)
      = (if store.any (fun c => c.id != id &&
            regexTest (.caret :: (name.data.map RAtom.lit ++ [.dollar])) c.cityName.data)
         then .conflict
         else
           match store.find? (fun c => c.id == id) with
           | none => .notFound
           | some c => .updated (applyUpdate c (some name) (some k))
               (store.map fun x =>
                 if x.id == id then applyUpdate c (some name) (some k) else x)) := by
    unfold updateCity
    rw [show jsStr (some name) = name from rfl, anchorParse_lits hlit]
  rw [h1, any_anchored_guard store id name]

/-- Shared: a second record (different id, same name ignoring case) makes
the update handler answer the duplicate-name error. -/
theorem updateCity_conflict_of_dup {store : Store} {id : Nat} {name : String}
    {k : Int} (hlit : name.data.all isLitChar = true) {b : City}
    (hb : b ∈ store) (hbid : b.id ≠ id) (hbeq : ciEq b.cityName name = true) :
    updateCity store id (some name) (some k) = .conflict := by
  rw [updateCity_eq_ci store id name k hlit]
  have hany : (store.any fun c => c.id != id && ciEq c.cityName name) = true :=
    List.any_eq_true.mpr ⟨b, hb, by rw [Bool.and_eq_true, bne_iff_ne]; exact ⟨hbid, hbeq⟩⟩
  rw [if_pos hany]

end CityApi

namespace CityApi

/-! ### Claim C3 -/

/-- Claim C3, counterexample: the uniqueness probe compiles the submitted
name into the regex `^name$`, so creating `"."` against a store holding
`"a"` answers 409 although `"."` is not case-insensitively equal to the
name of any existing city (the claim requires 201 here). -/
theorem C3_counterexample :
    createCity [⟨1, "a", 0⟩] 2 (some ".") (some 3) = .conflict
    ∧ ciEq "." "a" = false :=
  ⟨by decide, by decide⟩

/-- Claim C3 (amended): for every metacharacter-free, non-empty submitted
name, create answers 409 `'City with this name already exists.'` exactly
when some stored city's name equals the submitted name ignoring case (any
case variant), persisting nothing; otherwise the city is persisted
(appended with the fresh id) and returned with 201. -/
theorem C3_create_ci_unique (store : Store) (nextId : Nat) (name : String)
    (k : Int) (hlit : name.data.all isLitChar = true) (hne : name ≠ "") :
    createCity store nextId (some name) (some k)
      = (if store.any (fun c => ciEq c.cityName name) then .conflict
         else .created ⟨nextId, name, k⟩ (store ++ [⟨nextId, name, k⟩]))
    ∧ createStatus CreateResult.conflict = 409
    ∧ createError CreateResult.conflict
        = some "City with this name already exists." := by
  refine ⟨?_, rfl, rfl⟩
  rw [createCity_eq_ci store nextId name k hlit, if_neg hne]

/-- Claim C3 witness: `"PARIS"` against a store holding `"Paris"`. -/
theorem C3_witness :
    createCity [⟨1, "Paris", 5⟩] 2 (some "PARIS") (some 9)
      = (if ([⟨1, "Paris", 5⟩] : Store).any (fun c => ciEq c.cityName "PARIS")
         then CreateResult.conflict
         else .created ⟨2, "PARIS", 9⟩ ([⟨1, "Paris", 5⟩] ++ [⟨2, "PARIS", 9⟩]))
    ∧ createStatus CreateResult.conflict = 409
    ∧ createError CreateResult.conflict
        = some "City with this name already exists." :=
  C3_create_ci_unique [⟨1, "Paris", 5⟩] 2 "PARIS" 9 (by decide) (by decide)

/-! ### Claim C4 -/

/-- Claim C4, counterexample: a city whose stored name is `"("` cannot be
updated to its own current name — `new RegExp("^($")` throws, so the
handler answers the catch-all 400 instead of succeeding. -/
theorem C4_counterexample :
    getCityById [⟨1, "(", 0⟩] 1 = some ⟨1, "(", 0⟩
    ∧ updateCity [⟨1, "(", 0⟩] 1 (some "(") (some 0) = .badRequest :=
  ⟨by decide, by decide⟩

/-- Claim C4 (amended): for every metacharacter-free submitted name,
updating a city to a name already used (ignoring case) by a different
record answers the duplicate-name 400 and leaves the store unchanged;
and updating a record `A` to its own current name succeeds (200 with the
updated document), provided no other record shares that name ignoring
case — the record's own id is excluded from the uniqueness probe. -/
theorem C4_update_ci_unique (store : Store) (id : Nat) (name : String)
    (k : Int) (hlit : name.data.all isLitChar = true) :
    ((∃ b ∈ store, b.id ≠ id ∧ ciEq b.cityName name = true) →
        updateCity store id (some name) (some k) = .conflict)
    ∧ (∀ A ∈ store, A.id = id → (store.map City.id).Nodup →
        A.cityName = name →
        (∀ b ∈ store, b.id ≠ id → ciEq b.cityName name = false) →
        updateCity store id (some name) (some k)
          = .updated ⟨id, name, k⟩
              (store.map fun x => if x.id == id then ⟨id, name, k⟩ else x)) := by
  constructor
  · rintro ⟨b, hb, hbid, hbeq⟩
    exact updateCity_conflict_of_dup hlit hb hbid hbeq
  · intro A hA hid hnd _ hnodup
    subst hid
    rw [updateCity_eq_ci store A.id name k hlit]
    have hany : (store.any fun c => c.id != A.id && ciEq c.cityName name) = false := by
      rw [← Bool.not_eq_true, List.any_eq_true]
      rintro ⟨c, hc, hcc⟩
      rw [Bool.and_eq_true, bne_iff_ne] at hcc
      exact absurd hcc.2 (by rw [hnodup c hc hcc.1]; exact Bool.false_ne_true)
    rw [if_neg (by rw [hany]; exact Bool.false_ne_true)]
    rw [find_id_of_mem_nodup hnd hA]
    rfl

/-- Claim C4 witness: updating `"Oslo"` (id 2) to `"rome"` while `"Rome"`
(id 1) exists. -/
theorem C4_witness :
    updateCity [⟨1, "Rome", 1⟩, ⟨2, "Oslo", 2⟩] 2 (some "rome") (some 7)
      = .conflict :=
  (C4_update_ci_unique [⟨1, "Rome", 1⟩, ⟨2, "Oslo", 2⟩] 2 "rome" 7
      (by decide)).1 ⟨⟨1, "Rome", 1⟩, by decide, by decide⟩

/-! ### Claim C9 -/

/-- Claim C9, counterexample: the probe is a regex match, not a
case-insensitive string comparison, so it can miss a stored name that is
literally (hence case-insensitively) equal to the submitted one.  The city
`"a^b"` is creatable through POST (shown by the last conjunct: the
anchored pattern `^a^b$` is a valid regex that matches nothing, so the
create probe misses and the save succeeds); updating the unresolvable id 9
to the name `"a^b"` then answers 404, not the duplicate-name 400 the claim
requires, because `/^a^b$/i` does not match the stored `"a^b"` either. -/
theorem C9_counterexample :
    updateCity [⟨1, "a^b", 0⟩] 9 (some "a^b") (some 0) = .notFound
    ∧ getCityById [⟨1, "a^b", 0⟩] 9 = none
    ∧ ciEq "a^b" "a^b" = true
    ∧ createCity ([] : Store) 1 (some "a^b") (some 0)
        = .created ⟨1, "a^b", 0⟩ [⟨1, "a^b", 0⟩] :=
  ⟨by decide, by decide, by decide, by decide⟩

/-- Claim C9 (amended): for submitted names in the literal fragment —
where the anchored probe coincides with case-insensitive full-name
equality — the duplicate-name probe runs before the existence lookup:
when the target id resolves to no record but the submitted name collides
(ignoring case) with an existing city, the handler answers the
duplicate-name 400, not 404.  For names containing regex-active
characters the probe can miss a case-insensitively equal stored name and
the handler answers 404 (see the counterexample). -/
theorem C9_conflict_precedes_notfound (store : Store) (id : Nat)
    (name : String) (k : Int)
    (hlit : name.data.all isLitChar = true)
    (hmiss : ∀ c ∈ store, c.id ≠ id)
    (hdup : ∃ b ∈ store, ciEq b.cityName name = true) :
    updateCity store id (some name) (some k) = .conflict
    ∧ updateStatus (updateCity store id (some name) (some k)) = 400 := by
  obtain ⟨b, hb, hbeq⟩ := hdup
  have h : updateCity store id (some name) (some k) = .conflict :=
    updateCity_conflict_of_dup hlit hb (hmiss b hb) hbeq
  exact ⟨h, by rw [h]; rfl⟩

/-- Claim C9 witness: id 9 resolves to nothing, but `"LYON"` collides with
the stored `"Lyon"`. -/
theorem C9_witness :
    updateCity [⟨1, "Lyon", 0⟩] 9 (some "LYON") (some 4) = .conflict
    ∧ updateStatus (updateCity [⟨1, "Lyon", 0⟩] 9 (some "LYON") (some 4))
        = 400 :=
  C9_conflict_precedes_notfound [⟨1, "Lyon", 0⟩] 9 "LYON" 4
    (by decide) (by decide) ⟨⟨1, "Lyon", 0⟩, by decide, by decide⟩

end CityApi

namespace CityApi

/-! ### Claim C5 -/

/-- Claim C5: an id resolving to no record makes delete answer 404; after
a successful delete (200) of a record, deleting the same id again answers
404 (ids are unique in the store, `_id` being a unique index). -/
theorem C5_delete_notfound (store : Store) (id : Nat) :
    ((∀ c ∈ store, c.id ≠ id) → deleteCity store id = .notFound)
    ∧ ∀ s', (store.map City.id).Nodup →
        deleteCity store id = .deleted s' →
        deleteStatus (DeleteResult.deleted s') = 200
        ∧ deleteCity s' id = .notFound := by
  constructor
  · intro h
    unfold deleteCity
    rw [List.find?_eq_none.mpr (fun x hx h' => h x hx (beq_iff_eq.mp h'))]
  · intro s' hnd hdel
    unfold deleteCity at hdel
    rcases hfind : store.find? (fun c => c.id == id) with _ | c
    · rw [hfind] at hdel; cases hdel
    · rw [hfind] at hdel
      cases hdel
      refine ⟨rfl, ?_⟩
      unfold deleteCity
      rw [List.find?_eq_none.mpr
        (fun x hx h' => eraseP_id_not_mem hnd x hx (beq_iff_eq.mp h'))]

/-- Claim C5 witness: deleting from an empty store, and deleting the only
city twice. -/
theorem C5_witness :
    deleteCity ([] : Store) 7 = .notFound
    ∧ deleteCity ([] : Store) 1 = .notFound :=
  ⟨(C5_delete_notfound [] 7).1 (by decide),
   ((C5_delete_notfound [⟨1, "a", 0⟩] 1).2 [] (by decide) (by decide)).2⟩

/-! ### Claim C6 -/

/-- Claim C6: a successful create followed by `getById` on the returned
record's id yields a record with exactly the submitted name and count
(the store assigns a fresh id). -/
theorem C6_create_getById_roundtrip (store : Store) (nextId : Nat)
    (name : String) (k : Int) (c : City) (s' : Store)
    (hfresh : ∀ x ∈ store, x.id ≠ nextId)
    (h : createCity store nextId (some name) (some k) = .created c s') :
    getCityById s' c.id = some c ∧ c.cityName = name ∧ c.count = k := by
  unfold createCity at h
  rcases hp : anchorParse (jsStr (some name)) with _ | pat
  · rw [hp] at h; cases h
  · rw [hp] at h
    have h2 : (if store.any (fun cc => regexTest pat cc.cityName.data)
        then CreateResult.conflict
        else if name = "" then .badRequest
        else .created ⟨nextId, name, k⟩ (store ++ [⟨nextId, name, k⟩]))
          = .created c s' := h
    by_cases hany : (store.any fun cc => regexTest pat cc.cityName.data) = true
    · rw [if_pos hany] at h2; cases h2
    · rw [if_neg hany] at h2
      by_cases hne : name = ""
      · rw [if_pos hne] at h2; cases h2
      · rw [if_neg hne] at h2
        cases h2
        refine ⟨?_, rfl, rfl⟩
        unfold getCityById
        rw [List.find?_append,
          List.find?_eq_none.mpr (fun x hx h' => hfresh x hx (beq_iff_eq.mp h'))]
        simp [List.find?]

/-- Claim C6 witness: creating `"X"` with count 2 in the empty store and
reading it back. -/
theorem C6_witness :
    getCityById [⟨1, "X", 2⟩] (City.id ⟨1, "X", 2⟩) = some ⟨1, "X", 2⟩
    ∧ (⟨1, "X", 2⟩ : City).cityName = "X"
    ∧ (⟨1, "X", 2⟩ : City).count = 2 :=
  C6_create_getById_roundtrip [] 1 "X" 2 ⟨1, "X", 2⟩ [⟨1, "X", 2⟩]
    (by decide) (by decide)

/-! ### Claim C8 -/

/-- Claim C8, counterexample: the schema has no lower bound on `count`
(only `required`), so a create with `count = -1` is persisted and answered
201, where the claim requires a 400 validation failure. -/
theorem C8_counterexample :
    createCity [] 1 (some "A") (some (-1))
      = .created ⟨1, "A", -1⟩ [⟨1, "A", -1⟩]
    ∧ createStatus (createCity [] 1 (some "A") (some (-1))) = 201 := by
  exact ⟨by decide, by decide⟩

/-- Claim C8 (amended): a create request missing `cityName` or `count`
fails with the catch-all 400 and persists nothing (mongoose `required`
validation on save), for submitted names in the literal fragment — on
which the `findOne` probe is exactly case-insensitive full-name equality —
and provided no stored city's name equals the interpolated name
case-insensitively: an absent `cityName` interpolates as the literal text
`"undefined"`, so a stored city of that name would produce a 409 first.
Negative counts are not validated anywhere (see the counterexample), and
the update path runs no validators at all. -/
theorem C8_validation_absent (store : Store) (nextId : Nat)
    (cityName : Option String) (count : Option Int)
    (habsent : cityName = none ∨ count = none)
    (hlit : (jsStr cityName).data.all isLitChar = true)
    (hnodup : ∀ c ∈ store, ciEq c.cityName (jsStr cityName) = false) :
    createCity store nextId cityName count = .badRequest
    ∧ createStatus CreateResult.badRequest = 400 := by
  refine ⟨?_, rfl⟩
  have hcond : ¬ ((store.any fun c =>
      regexTest (.caret :: ((jsStr cityName).data.map RAtom.lit ++ [.dollar]))
        c.cityName.data) = true) := by
    rw [any_anchored store (jsStr cityName), List.any_eq_true]
    rintro ⟨c, hc, hcc⟩
    rw [hnodup c hc] at hcc
    exact Bool.false_ne_true hcc
  unfold createCity
  rw [anchorParse_lits hlit]
  set pat0 := RAtom.caret ::
    ((jsStr cityName).data.map RAtom.lit ++ [RAtom.dollar]) with hpat0
  rcases habsent with h | h
  · subst h
    cases count with
    | none =>
      show (if (store.any fun c => regexTest pat0 c.cityName.data) = true
          then CreateResult.conflict else CreateResult.badRequest)
        = CreateResult.badRequest
      rw [if_neg hcond]
    | some kk =>
      show (if (store.any fun c => regexTest pat0 c.cityName.data) = true
          then CreateResult.conflict else CreateResult.badRequest)
        = CreateResult.badRequest
      rw [if_neg hcond]
  · subst h
    cases cityName with
    | none =>
      show (if (store.any fun c => regexTest pat0 c.cityName.data) = true
          then CreateResult.conflict else CreateResult.badRequest)
        = CreateResult.badRequest
      rw [if_neg hcond]
    | some n =>
      show (if (store.any fun c => regexTest pat0 c.cityName.data) = true
          then CreateResult.conflict else CreateResult.badRequest)
        = CreateResult.badRequest
      rw [if_neg hcond]

/-- Claim C8 witness: a create with no `cityName` against the empty
store. -/
theorem C8_witness :
    createCity ([] : Store) 1 none (some 3) = .badRequest
    ∧ createStatus CreateResult.badRequest = 400 :=
  C8_validation_absent [] 1 none (some 3) (Or.inl rfl) (by decide) (by decide)

/-! ### Claim C10 -/

/-- Claim C10: a well-formed create whose name `"("` is not a valid regex
pattern fails with the catch-all 400 (`new RegExp` throws inside the
handler's try) and persists nothing, although no city of that name exists
in the (empty) store. -/
theorem C10_invalid_regex_create :
    createCity ([] : Store) 1 (some "(") (some 3) = .badRequest
    ∧ createStatus (createCity ([] : Store) 1 (some "(") (some 3)) = 400
    ∧ createError (createCity ([] : Store) 1 (some "(") (some 3))
        = some "Failed to create city" := by
  exact ⟨by decide, by decide, by decide⟩

end CityApi
